import Mathlib

/-!
# Verification of the tunnelgraf tunnel-graph engine

A shallow embedding of the core of the `tunnelgraf` repository:

* `HopData` / `Hop` embed `TunnelDefinition` (src/tunnelgraf/tunnel_definition.py):
  a recursive hop specification with an optional single child (`nexthop`) and an
  optional fan-out list of children (`nexthops`).
* The engine `Tunnels` (src/tunnelgraf/tunnels.py) is embedded as the mutually
  recursive functions `makeTunnel` / `processNexthop` / `processNexthops`
  threading an explicit `EngineSt` state (processed configs and created
  tunnels), with the per-run constants (`connect_tunnels`, excluded dump
  fields, DNS resolution through a hop) in an `EngineCtx`.
* `TunnelBuilder` (src/tunnelgraf/tunnel_builder.py) is embedded by
  `mkTunnelRecord` (the connection parameters captured at construction),
  `startTunnel` (the retry loop) and `destroyTunnel`.
* `RunCommand` (src/tunnelgraf/run_remote.py) and `NSLookup`
  (src/tunnelgraf/nslookup.py) are embedded by `runCommand` / `nslookupHostIp`.
* `TunnelCount` (src/tunnelgraf/tunnel_count.py), `HostsManager`
  (tunnelgraf/hosts_manager.py) and the monitor status line
  (`Tunnels._check_tunnel_status`) are embedded by `tunnelCountTunnels`,
  `stopTunnels` and `checkTunnelStatus`.

Python mutation is modelled by explicit state passing; Python exceptions by
`Except`; the worker threads spawned for leaf chains are serialized at their
spawn point (their effects on the shared lists happen in program order).
-/

namespace Tunnelgraf

/-- The scalar fields of `TunnelDefinition` (tunnel_definition.py, lines 13-41).
Field names and pydantic defaults follow the source; `include` is a Lean
keyword, so that field is called `include_`.  `id` and `localbindport` are
the two pydantic-required fields (`str` and `int`), all others are optional
with the listed defaults. -/
structure HopData where
  id : String
  include_ : Option String := none
  host : Option String := none
  port : Option Int := some 22
  localbindaddress : Option String := some "127.0.0.1"
  localbindport : Int
  protocol : Option String := some "ssh"
  sshuser : Option String := none
  sshpass : Option String := none
  sshkeyfile : Option String := none
  hostlookup : Option String := none
  nameserver : Option String := none
  lastpass : Option String := none
  hosts_file_entry : Option String := none
  hosts_file_entries : List String := []
  deriving Repr, DecidableEq

/-- A `TunnelDefinition` tree node: scalar data plus the recursive
`nexthop` / `nexthops` fields. -/
inductive Hop : Type where
  | mk (data : HopData) (nexthop : Option Hop) (nexthops : Option (List Hop))
  deriving Repr

/-- The scalar fields of a hop. -/
def Hop.data : Hop → HopData
  | .mk d _ _ => d

@[simp] theorem Hop.data_mk (d : HopData) (nh : Option Hop) (nhs : Option (List Hop)) :
    (Hop.mk d nh nhs).data = d := rfl

/-- The single-child `nexthop` field of a hop. -/
def Hop.nexthop : Hop → Option Hop
  | .mk _ nh _ => nh

/-- The fan-out `nexthops` field of a hop. -/
def Hop.nexthops : Hop → Option (List Hop)
  | .mk _ _ nhs => nhs

mutual
/-- Number of nodes of a hop tree, weighted so that every list element also
counts the cons cell; used as the termination measure of the engine. -/
def Hop.sz : Hop → Nat
  | .mk _ nh nhs => 1 + Hop.szO nh + Hop.szLO nhs

/-- Size of an optional child. -/
def Hop.szO : Option Hop → Nat
  | none => 0
  | some h => h.sz

/-- Size of an optional child list. -/
def Hop.szLO : Option (List Hop) → Nat
  | none => 0
  | some l => Hop.szL l

/-- Size of a child list (one extra unit per element). -/
def Hop.szL : List Hop → Nat
  | [] => 0
  | h :: t => 1 + h.sz + Hop.szL t
end

mutual
/-- The `id` fields of all nodes of a hop tree, in preorder. -/
def Hop.idsOf : Hop → List String
  | .mk d nh nhs => d.id :: (Hop.idsOfO nh ++ Hop.idsOfLO nhs)

/-- Ids of an optional child. -/
def Hop.idsOfO : Option Hop → List String
  | none => []
  | some h => h.idsOf

/-- Ids of an optional child list. -/
def Hop.idsOfLO : Option (List Hop) → List String
  | none => []
  | some l => Hop.idsOfL l

/-- Ids of a child list. -/
def Hop.idsOfL : List Hop → List String
  | [] => []
  | h :: t => h.idsOf ++ Hop.idsOfL t
end

/-- Python truthiness of an optional string (`None` and `""` are falsy). -/
def strTruthy (o : Option String) : Bool := !(o.getD "").isEmpty

/-- `Tunnels._update_bastion_address` (tunnels.py, lines 174-179) on the
scalar fields: overwrite the node's `host` and `port` with its own
`localbindaddress` and `localbindport`. -/
def updateBastionData (d : HopData) : HopData :=
  { d with host := d.localbindaddress, port := some d.localbindport }

/-- `Tunnels._update_bastion_address` ("updates the bastion address and port
to reference the one just created"). -/
def updateBastion : Hop → Hop
  | .mk d nh nhs => .mk (updateBastionData d) nh nhs

theorem sz_updateBastion (h : Hop) : (updateBastion h).sz = h.sz := by
  cases h
  rfl

theorem idsOf_updateBastion (h : Hop) : (updateBastion h).idsOf = h.idsOf := by
  cases h
  rfl

/-! ## The flattened reporting dict (`model_dump(exclude=...)`) -/

/-- A pydantic field value, as it appears in a `model_dump` dict. -/
inductive FieldVal where
  | vs (s : Option String)
  | vi (n : Option Int)
  | vls (l : List String)
  | vhop (h : Option Hop)
  | vhops (l : Option (List Hop))

/-- A `model_dump` result: a dict from field name to field value. -/
def Dump := List (String × FieldVal)

/-- All seventeen fields of `TunnelDefinition`, in declaration order, paired
with their values for a given node. -/
def allFields (h : Hop) : Dump :=
  [("id", .vs (some h.data.id)),
   ("include", .vs h.data.include_),
   ("host", .vs h.data.host),
   ("port", .vi h.data.port),
   ("localbindaddress", .vs h.data.localbindaddress),
   ("localbindport", .vi (some h.data.localbindport)),
   ("protocol", .vs h.data.protocol),
   ("sshuser", .vs h.data.sshuser),
   ("sshpass", .vs h.data.sshpass),
   ("sshkeyfile", .vs h.data.sshkeyfile),
   ("hostlookup", .vs h.data.hostlookup),
   ("nameserver", .vs h.data.nameserver),
   ("lastpass", .vs h.data.lastpass),
   ("hosts_file_entry", .vs h.data.hosts_file_entry),
   ("hosts_file_entries", .vls h.data.hosts_file_entries),
   ("nexthop", .vhop h.nexthop),
   ("nexthops", .vhops h.nexthops)]

/-- `TunnelDefinition.model_dump(exclude=excl)`: the dict of all fields whose
name is not in the exclusion list. -/
def modelDump (h : Hop) (excl : List String) : Dump :=
  (allFields h).filter (fun p => !(excl.contains p.1))

/-- The `"id"` entry of a dump (`t["id"]` in the source; the engine only ever
reads it on dumps that contain it). -/
def dumpIdStr (d : Dump) : String :=
  match List.lookup "id" d with
  | some (.vs (some s)) => s
  | _ => ""

/-- `Tunnels._get_excluded_fields` (tunnels.py, lines 55-59): `nexthop`,
`nexthops`, `localbindaddress`, `localbindport` are always excluded from the
reporting dump; `sshuser`, `sshpass`, `sshkeyfile` are additionally excluded
unless `show_credentials` is true. -/
def getExcludedFields (showCredentials : Bool) : List String :=
  ["nexthop", "nexthops", "localbindaddress", "localbindport"] ++
    (if showCredentials then [] else ["sshuser", "sshpass", "sshkeyfile"])

/-! ## The engine (`Tunnels`) -/

/-- The connection parameters a `TunnelBuilder` captures at construction
(tunnel_builder.py, lines 22-59): it is built from a parent definition
(`tunnel_config`) whose `nexthop` is the hop being materialized; the SSH
bastion dialed is `(tunnel_config.host, tunnel_config.port)`, the forward
goes to `(nexthop.host, nexthop.port)` (after an optional DNS lookup through
the parent) and listens on `(nexthop.localbindaddress, nexthop.localbindport)`.
The parent's own fields (`parentId`, `parentLocalBindAddress`,
`parentLocalBindPort`) are the corresponding projections of the retained
`tunnel_config`. -/
structure TunnelRecord where
  bastionHost : Option String
  bastionPort : Option Int
  tunnelId : String
  remoteHost : Option String
  remotePort : Option Int
  localBindAddress : Option String
  localBindPort : Int
  parentId : String
  parentLocalBindAddress : Option String
  parentLocalBindPort : Int
  deriving Repr, DecidableEq

/-- Per-run constants of the engine: the `connect_tunnels` flag, the excluded
dump fields, and the DNS resolution performed through an established hop
(`TunnelBuilder._lookup_host` / `NSLookup`), abstracted as a function from
(record, nameserver) to the resolved address. -/
structure EngineCtx where
  connectTunnels : Bool
  excludedFields : List String
  resolveDns : String → Option String → Option String

/-- Mutable engine state: `self.tunnel_configs` (the flattened processed
configs) and `self.tunnels` (the created tunnels, in creation order). -/
structure EngineSt where
  processed : List Dump
  tunnels : List TunnelRecord

/-- `TunnelBuilder.__init__` for parent data `d` and child hop `c`
(tunnel_builder.py, lines 22-59): if `nexthop.hostlookup` is truthy, the
child's `host` is first overwritten with the DNS lookup result.  (The
source line consulting `tunnel_config.proxycommand` is omitted:
`TunnelDefinition` declares no such field, an orthogonal defect not covered
by the claims.  The in-place write to `nexthop.host` is immaterial beyond
this record because `_update_bastion_address` overwrites `host` again before
the engine recurses.) -/
def mkTunnelRecord (ctx : EngineCtx) (d : HopData) (c : Hop) : TunnelRecord :=
  let resolvedHost : Option String :=
    if strTruthy c.data.hostlookup then
      ctx.resolveDns (c.data.hostlookup.getD "") c.data.nameserver
    else c.data.host
  { bastionHost := d.host
    bastionPort := d.port
    tunnelId := c.data.id
    remoteHost := resolvedHost
    remotePort := c.data.port
    localBindAddress := c.data.localbindaddress
    localBindPort := c.data.localbindport
    parentId := d.id
    parentLocalBindAddress := d.localbindaddress
    parentLocalBindPort := d.localbindport }

/-- `Tunnels._add_to_processed_configs` (tunnels.py, lines 214-219): append
`model_dump(exclude=self._excluded_fields)` unless some already-recorded
dump has the same `id` (first occurrence wins). -/
def addToProcessedConfigs (ctx : EngineCtx) (h : Hop) (s : EngineSt) : EngineSt :=
  if s.processed.any (fun t => dumpIdStr t == h.data.id) then s
  else { s with processed := s.processed ++ [modelDump h ctx.excludedFields] }

mutual
/-- `Tunnels.make_tunnel` (tunnels.py, lines 189-200): record the node into
the processed configs, then, if `nexthop` is set, run `_process_nexthop`
(for a leaf child this happens on a worker thread, serialized here at its
spawn point), and if `nexthops` is set, run `_process_nexthops`.  The four
equations enumerate the presence of `nexthop`/`nexthops`. -/
def makeTunnel (ctx : EngineCtx) : Hop → EngineSt → EngineSt
  | .mk d none none, s => addToProcessedConfigs ctx (.mk d none none) s
  | .mk d (some c) none, s =>
      processNexthop ctx d c (addToProcessedConfigs ctx (.mk d (some c) none) s)
  | .mk d none (some l), s =>
      processNexthops ctx d l (addToProcessedConfigs ctx (.mk d none (some l)) s)
  | .mk d (some c) (some l), s =>
      processNexthops ctx d l
        (processNexthop ctx d c (addToProcessedConfigs ctx (.mk d (some c) (some l)) s))
  termination_by h _ => 3 * h.sz + 2
  decreasing_by
  all_goals try rw [sz_updateBastion]
  all_goals try simp only [Hop.sz, Hop.szO, Hop.szLO, Hop.szL]
  all_goals omega

/-- `Tunnels._process_nexthop` (tunnels.py, lines 202-206) on a definition
with data `d` and `nexthop = c`: in connect mode append
`TunnelBuilder(this_tunnel_def)` to `self.tunnels`, then rewrite the child
with `_update_bastion_address` and recurse into it. -/
def processNexthop (ctx : EngineCtx) (d : HopData) (c : Hop) (s : EngineSt) : EngineSt :=
  let s1 : EngineSt :=
    if ctx.connectTunnels then { s with tunnels := s.tunnels ++ [mkTunnelRecord ctx d c] }
    else s
  makeTunnel ctx (updateBastion c) s1
  termination_by 3 * c.sz + 3
  decreasing_by
  all_goals try rw [sz_updateBastion]
  all_goals try simp only [Hop.sz, Hop.szO, Hop.szLO, Hop.szL]
  all_goals omega

/-- `Tunnels._process_nexthops` (tunnels.py, lines 208-212) on a definition
with data `d`: for each fan-out child `t`, take
`model_copy(update={"nexthop": t, "nexthops": None})` of the parent (its
data with `nexthop := t`, `nexthops := none`), rewrite it with
`_update_bastion_address`, and recurse into the copy. -/
def processNexthops (ctx : EngineCtx) (d : HopData) (l : List Hop) (s : EngineSt) : EngineSt :=
  match l with
  | [] => s
  | t :: rest =>
      processNexthops ctx d rest (makeTunnel ctx (updateBastion (.mk d (some t) none)) s)
  termination_by 3 * Hop.szL l + 4
  decreasing_by
  all_goals try rw [sz_updateBastion]
  all_goals try simp only [Hop.sz, Hop.szO, Hop.szLO, Hop.szL]
  all_goals omega
end

/-- `Tunnels.make_tunnels` (tunnels.py, lines 181-187) for a list of root
definitions (the single-root case is `makeTunnel` directly). -/
def makeTunnels (ctx : EngineCtx) (roots : List Hop) (s : EngineSt) : EngineSt :=
  roots.foldl (fun s h => makeTunnel ctx h s) s

/-- The engine state at the start of a run: empty `tunnel_configs` and
`tunnels` lists. -/
def initSt : EngineSt := ⟨[], []⟩

/-- The per-run constants as `Tunnels.__init__` (tunnels.py, lines 30-53)
sets them up from its `connect_tunnels`/`show_credentials` arguments. -/
def mkEngineCtx (connectTunnels showCredentials : Bool)
    (resolveDns : String → Option String → Option String) : EngineCtx :=
  ⟨connectTunnels, getExcludedFields showCredentials, resolveDns⟩

/-! ## Python exceptions -/

/-- The Python exceptions observable in the embedded code paths. -/
inductive PyExc where
  | attributeError (name : String)
  | valueError (msg : String)
  | validationError (field : String)
  | fileNotFound (path : String)
  | systemExit (code : Int)
  | nameError (name : String)
  | lastpassError (ref : String)
  deriving Repr, DecidableEq

/-! ## Teardown (`Tunnels.stop_tunnels`) -/

/-- The side effects `Tunnels.stop_tunnels` (tunnels.py, lines 221-233)
performs, in order. -/
inductive StopEvent where
  | logStopping
  | restoreOriginalHostsFile
  | resetTunnelCount
  | closingMessage (localBindAddress : Option String) (localBindPort : Int)
  | destroyTunnel (t : TunnelRecord)
  deriving Repr, DecidableEq

/-- `Tunnels.stop_tunnels`: log, restore the original hosts file
(`HostsManager.restore_original_hosts_file`, hosts_manager.py lines 52-55,
which writes back the snapshot taken at startup), reset the tunnel counter,
then for each tunnel of `reversed(self.tunnels)` print the closing message
and call `destroy_tunnel` (each destroy guarded by try/except). -/
def stopTunnels (s : EngineSt) : List StopEvent :=
  [.logStopping, .restoreOriginalHostsFile, .resetTunnelCount] ++
    s.tunnels.reverse.flatMap
      (fun t => [.closingMessage t.localBindAddress t.localBindPort, .destroyTunnel t])

/-- Is an event the hosts-file restore? -/
def isRestoreEv : StopEvent → Bool
  | .restoreOriginalHostsFile => true
  | _ => false

/-- Is an event a tunnel destruction? -/
def isDestroyEv : StopEvent → Bool
  | .destroyTunnel _ => true
  | _ => false

/-- The tunnels destroyed by a list of events, in order. -/
def destroyedTunnels (evs : List StopEvent) : List TunnelRecord :=
  evs.filterMap (fun e => match e with | .destroyTunnel t => some t | _ => none)

/-! ## `TunnelBuilder.start_tunnel` and `TunnelBuilder.destroy_tunnel` -/

/-- Behaviour of the underlying `SSHTunnelForwarder`: whether its `k`-th
`start()` call raises (the exception is caught by the retry loop), and the
value of its `is_active` flag after `k` start calls. -/
structure ForwarderBehavior where
  raisesOnStart : Nat → Bool
  activeAfter : Nat → Bool

/-- Observable steps of `TunnelBuilder.start_tunnel`. -/
inductive StartEv where
  | startCall (k : Nat)
  | startExceptionCaught (k : Nat)
  | activeCheck (b : Bool)
  | logSuccess
  | logFailure (attempt : Nat)
  | sleepOneSecond
  deriving Repr, DecidableEq

/-- Outcome of `TunnelBuilder.start_tunnel`: how many times
`self.tunnel.start()` was called, the final `is_active` state, and the event
trace.  The loop never lets an exception escape (`start()` is wrapped in
try/except), so the result is total. -/
structure StartResult where
  startCalls : Nat
  tunnelIsUp : Bool
  events : List StartEv
  deriving Repr, DecidableEq

/-- One iteration of the `for attempt in range(retry_attempts)` loop of
`TunnelBuilder.start_tunnel` (tunnel_builder.py, lines 72-92): call
`start()` inside try/except, then check `is_active`; on success log and
break, otherwise log the failed attempt (yellow before the last attempt,
red on it) and sleep one second.  `remaining` counts the iterations left in
`range(3)`. -/
def startTunnelLoop (fb : ForwarderBehavior) :
    Nat → Nat → Nat → List StartEv → StartResult
  | 0, _, calls, evs => { startCalls := calls, tunnelIsUp := fb.activeAfter calls, events := evs }
  | remaining + 1, attempt, calls, evs =>
      let calls1 := calls + 1
      let evs1 := evs ++ [.startCall calls1] ++
        (if fb.raisesOnStart calls1 then [.startExceptionCaught calls1] else [])
      if fb.activeAfter calls1 then
        { startCalls := calls1, tunnelIsUp := true,
          events := evs1 ++ [.activeCheck true, .logSuccess] }
      else
        startTunnelLoop fb remaining (attempt + 1) calls1
          (evs1 ++ [.activeCheck false, .logFailure (attempt + 1), .sleepOneSecond])

/-- `TunnelBuilder.start_tunnel`: `retry_attempts = 3` loop iterations. -/
def startTunnel (fb : ForwarderBehavior) : StartResult :=
  startTunnelLoop fb 3 0 0 []

/-- Events other than a caught `start()` exception. -/
def isNotCaughtExc : StartEv → Bool
  | .startExceptionCaught _ => false
  | _ => true

/-- State of a `TunnelBuilder` with respect to `destroy_tunnel`: `tunnel` is
`some` handle until `del self.tunnel` removes the attribute. -/
structure BuilderState where
  tunnel : Option Nat
  deriving Repr, DecidableEq

/-- `TunnelBuilder.destroy_tunnel` (tunnel_builder.py, lines 94-97):
`self.tunnel.close()` followed by `del self.tunnel`.  Once the attribute has
been deleted, the attribute access `self.tunnel` raises `AttributeError`. -/
def destroyTunnel (b : BuilderState) : Except PyExc BuilderState :=
  match b.tunnel with
  | some _ => .ok { tunnel := none }
  | none => .error (.attributeError "tunnel")

/-! ## `RunCommand.run` and `NSLookup` -/

/-- Result of one successful `exec_command`. -/
structure ExecOutcome where
  stdout : String
  stderr : String
  exitCode : Int
  deriving Repr, DecidableEq

/-- Behaviour of the remote side: for a command string and attempt number
(1-based), either a completed execution or `none` for a
`paramiko.SSHException` raised by `exec_command`. -/
structure ExecBehavior where
  attemptOutcome : String → Nat → Option ExecOutcome

/-- The `for attempt in range(attempts)` retry loop of `RunCommand.run`
(run_remote.py, lines 49-59): the first successful `exec_command` of up to
three attempts wins. -/
def execAttempts (b : ExecBehavior) (cmd : String) : Option ExecOutcome :=
  match b.attemptOutcome cmd 1 with
  | some o => some o
  | none =>
    match b.attemptOutcome cmd 2 with
    | some o => some o
    | none => b.attemptOutcome cmd 3

/-- Python's `str.strip()`: drop leading and trailing whitespace.  (Defined
over the character list; Lean's own `String.trim` is not kernel-reducible.) -/
def pyStrip (s : String) : String :=
  ⟨List.reverse (List.dropWhile Char.isWhitespace
    (List.reverse (List.dropWhile Char.isWhitespace s.data)))⟩

/-- `RunCommand.run` (run_remote.py, lines 46-74): after the retry loop,
read and strip stderr and stdout, and unless `silent`, pass stderr/stdout
along and `sys.exit(exit_code)` when the exit code is nonzero; finally
return the stripped stdout (whether or not it is empty).  If every exec
attempt raised, the loop only logs, and the following `stderr.read()`
reference hits an unbound local (`NameError`). -/
def runCommand (silent : Bool) (b : ExecBehavior) (cmd : String) : Except PyExc String :=
  match execAttempts b cmd with
  | none => .error (.nameError "stderr")
  | some o =>
    let thisResult := pyStrip o.stdout
    if silent then .ok thisResult
    else if o.exitCode ≠ 0 then .error (.systemExit o.exitCode)
    else .ok thisResult

/-- `NSLookup._make_lookup_cmd` (nslookup.py, lines 17-21). -/
def makeLookupCmd (record : String) (nameserver : Option String) : String :=
  let s := "dig +short " ++ record
  if strTruthy nameserver then s ++ " @" ++ nameserver.getD "" else s

/-- `NSLookup` (nslookup.py, lines 12-25): `host_ip` is the result of
running the dig command through the provided `RunCommand` connection
(which `TunnelBuilder._lookup_host` constructs without `silent`, so
`silent=False`). -/
def nslookupHostIp (record : String) (nameserver : Option String)
    (b : ExecBehavior) : Except PyExc String :=
  runCommand false b (makeLookupCmd record nameserver)

/-! ## `TunnelCount` and the monitor status line -/

/-- `TunnelCount.tunnels` (tunnel_count.py, lines 11-14): deduplicate
`self._tunnels[:-1]` — note the slice drops the most recently appended
element.  (Python materializes the set in unspecified order; first-occurrence
order is used here.  Nothing in the repository ever calls
`TunnelCount.add_tunnel`, so in every run the underlying list is empty.) -/
def tunnelCountTunnels (st : List String) : List String :=
  st.dropLast.dedup

/-- `TunnelCount.count` (tunnel_count.py, lines 16-18). -/
def tunnelCountCount (st : List String) : Nat :=
  (tunnelCountTunnels st).length

/-- What a monitor tick prints. -/
structure StatusReport where
  activeTunnels : Nat
  totalReported : Nat
  downIds : List String
  allActiveBanner : Bool
  deriving Repr, DecidableEq

/-- The `for tunnel in self.tunnels` loop of `Tunnels._check_tunnel_status`
(tunnels.py, lines 136-140): count tunnels whose forwarder reports
`tunnel_is_up` and remove their `nexthop.id` from the down list. -/
def statusLoop : List (String × Bool) → List String → Nat → Nat × List String
  | [], down, active => (active, down)
  | (tid, up) :: rest, down, active =>
      if up then
        statusLoop rest (if down.contains tid then down.erase tid else down) (active + 1)
      else statusLoop rest down active

/-- `Tunnels._check_tunnel_status` (tunnels.py, lines 131-154): start from
`TunnelCount().tunnels` as the down list, count active tunnels, report
`active of TunnelCount().count`, and append either the down-id list or the
all-active banner. -/
def checkTunnelStatus (tunnels : List (String × Bool)) (tcState : List String) :
    StatusReport :=
  let p := statusLoop tunnels (tunnelCountTunnels tcState) 0
  { activeTunnels := p.1
    totalReported := tunnelCountCount tcState
    downIds := p.2
    allActiveBanner := p.2.isEmpty }

/-! ## `TunnelDefinition.__init__`: construction and resolution

The construction pipeline of a single node (tunnel_definition.py, lines
43-113).  `none` in `RawConfig` means the key is absent from the input
mapping; for `port` the absent/explicit-`null` distinction matters (absent
defaults to 22, explicit `null` stays `None`), so that field is doubly
optional. -/

/-- The raw keyword arguments of `TunnelDefinition(**data)`. -/
structure RawConfig where
  id : Option String := none
  include_ : Option String := none
  host : Option String := none
  port : Option (Option Int) := none
  localbindaddress : Option String := none
  localbindport : Option Int := none
  protocol : Option String := none
  sshuser : Option String := none
  sshpass : Option String := none
  sshkeyfile : Option String := none
  hostlookup : Option String := none
  nameserver : Option String := none
  lastpass : Option String := none
  hosts_file_entry : Option String := none
  hosts_file_entries : Option (List String) := none
  deriving Repr, DecidableEq

/-- One host block of the parsed `~/.ssh/config`
(`paramiko.SSHConfig.lookup` result). -/
structure SshConfigEntry where
  user : Option String := none
  password : Option String := none
  port : Option Int := none
  hostname : Option String := none
  identityfile : Option (List String) := none
  deriving Repr, DecidableEq

/-- A secret as `LastpassSecret` exposes it (lastpass_secrets.py):
`secret_url` already has a leading `http://` stripped; user and password are
plain strings from the lpass JSON. -/
structure LastpassData where
  secret_url : String
  secret_user : String
  secret_pass : String
  deriving Repr, DecidableEq

/-- The environment a construction runs in: whether `~/.ssh/config` exists,
its per-host lookup, the lastpass vault (`none` means `lpass show` failed),
the readable include files, and `config.CONFIG_FILE_PATH`. -/
structure ConstructEnv where
  sshConfigExists : Bool
  sshLookup : String → SshConfigEntry
  lastpass : String → Option LastpassData
  includeFiles : String → Option RawConfig
  configFilePath : Option String

/-- The path of the user SSH config file opened unconditionally by
`TunnelDefinition.__init__` (tunnel_definition.py, lines 51-53). -/
def sshConfigPath : String := "~/.ssh/config"

/-- `super().__init__(**data)`: pydantic validation of the raw mapping.
`id` and `localbindport` are required; the remaining fields take their
declared defaults when absent. -/
def pydanticInit (raw : RawConfig) : Except PyExc HopData :=
  match raw.id with
  | none => .error (.validationError "id")
  | some i =>
    match raw.localbindport with
    | none => .error (.validationError "localbindport")
    | some lbp =>
      .ok { id := i
            include_ := raw.include_
            host := raw.host
            port := match raw.port with | none => some 22 | some v => v
            localbindaddress := match raw.localbindaddress with
              | none => some "127.0.0.1" | some v => some v
            localbindport := lbp
            protocol := match raw.protocol with | none => some "ssh" | some v => some v
            sshuser := raw.sshuser
            sshpass := raw.sshpass
            sshkeyfile := raw.sshkeyfile
            hostlookup := raw.hostlookup
            nameserver := raw.nameserver
            lastpass := raw.lastpass
            hosts_file_entry := raw.hosts_file_entry
            hosts_file_entries := raw.hosts_file_entries.getD [] }

/-- `deepmerge.always_merger.merge(included, data)`: the node's own explicit
fields win over the included fragment's. -/
def mergeField {α : Type} (own inc : Option α) : Option α :=
  match own with
  | some v => some v
  | none => inc

/-- Merge an included fragment underneath the node's own raw fields. -/
def mergeRaw (frag raw : RawConfig) : RawConfig :=
  { id := mergeField raw.id frag.id
    include_ := mergeField raw.include_ frag.include_
    host := mergeField raw.host frag.host
    port := mergeField raw.port frag.port
    localbindaddress := mergeField raw.localbindaddress frag.localbindaddress
    localbindport := mergeField raw.localbindport frag.localbindport
    protocol := mergeField raw.protocol frag.protocol
    sshuser := mergeField raw.sshuser frag.sshuser
    sshpass := mergeField raw.sshpass frag.sshpass
    sshkeyfile := mergeField raw.sshkeyfile frag.sshkeyfile
    hostlookup := mergeField raw.hostlookup frag.hostlookup
    nameserver := mergeField raw.nameserver frag.nameserver
    lastpass := mergeField raw.lastpass frag.lastpass
    hosts_file_entry := mergeField raw.hosts_file_entry frag.hosts_file_entry
    hosts_file_entries := mergeField raw.hosts_file_entries frag.hosts_file_entries }

/-- `fetch_include_values` plus the conditional re-init
(tunnel_definition.py, lines 45-48 and 62-71): when `include` is truthy and
`config.CONFIG_FILE_PATH` is set, open the referenced file (a missing file
raises), parse it, merge it underneath the node's own data and re-run the
pydantic init.  (Relative-path joining is abstracted: the include reference
itself is used as the lookup key.) -/
def includeStep (raw : RawConfig) (d0 : HopData) (env : ConstructEnv) :
    Except PyExc HopData :=
  if strTruthy d0.include_ && env.configFilePath.isSome then
    match env.includeFiles (d0.include_.getD "") with
    | none => .error (.fileNotFound (d0.include_.getD ""))
    | some frag => pydanticInit (mergeRaw frag raw)
  else .ok d0

/-- `get_ssh_config` (tunnel_definition.py, lines 73-88): fill unset
`sshuser`, `sshpass`, `port` (only while it is still the default 22),
`host` and `sshkeyfile` (first identity file when the config supplies a
list) from the SSH config block for `self.id`. -/
def applySshConfig (e : SshConfigEntry) (d : HopData) : HopData :=
  let d := { d with sshuser := match d.sshuser with | some u => some u | none => e.user }
  let d := { d with sshpass := match d.sshpass with | some p => some p | none => e.password }
  let d := { d with port := if d.port = some 22 then some (e.port.getD 22) else d.port }
  let d := { d with host := match d.host with | some h => some h | none => e.hostname }
  { d with sshkeyfile := match d.sshkeyfile with
      | some k => some k
      | none => match e.identityfile with
        | none => none
        | some l => l.head? }

/-- `get_lastpass_secret_config` (tunnel_definition.py, lines 90-101): when
`lastpass` is set, fetch the secret (a failed `lpass show` raises), then use
its URL to fill `host` when `host` is unset or still equals `id` and the URL
is nonempty, and its user/password to fill unset `sshuser`/`sshpass`. -/
def getLastpassSecretConfig (env : ConstructEnv) (d : HopData) : Except PyExc HopData :=
  match d.lastpass with
  | none => .ok d
  | some ref =>
    match env.lastpass ref with
    | none => .error (.lastpassError ref)
    | some sec =>
      let d := if (d.host = none ∨ d.host = some d.id) ∧ sec.secret_url ≠ "" then
          { d with host := some sec.secret_url } else d
      let d := { d with sshuser := match d.sshuser with
                  | some u => some u | none => some sec.secret_user }
      .ok { d with sshpass := match d.sshpass with
                  | some p => some p | none => some sec.secret_pass }

/-- `validate` (tunnel_definition.py, lines 103-113): check, in order, that
`id`, `localbindport`, `host` and `port` are not `None`, raising
`ValueError` for the first empty one.  `id : str` and `localbindport : int`
are non-optional after the pydantic init and can never be `None`, so only
the `host` and `port` checks can fire. -/
def validateTD (d : HopData) : Except PyExc HopData :=
  if d.host = none then .error (.valueError "Field host cannot be empty.")
  else if d.port = none then .error (.valueError "Field port cannot be empty.")
  else .ok d

/-- Everything `TunnelDefinition.__init__` (tunnel_definition.py, lines
43-60) does before `self.validate()`: pydantic init, include merge and
re-init, the unconditional `open(~/.ssh/config)` + `get_ssh_config`, and
`get_lastpass_secret_config`. -/
def preValidate (raw : RawConfig) (env : ConstructEnv) : Except PyExc HopData := do
  let d0 ← pydanticInit raw
  let d1 ← includeStep raw d0 env
  if env.sshConfigExists then
    getLastpassSecretConfig env (applySshConfig (env.sshLookup d1.id) d1)
  else .error (.fileNotFound sshConfigPath)

/-- `TunnelDefinition.__init__`: the resolution pipeline followed by
`self.validate()`. -/
def mkTunnelDefinition (raw : RawConfig) (env : ConstructEnv) : Except PyExc HopData := do
  let d ← preValidate raw env
  validateTD d

/-- `Tunnels.__init__` on a single-root profile: construct the
`TunnelDefinition` first, and only if that succeeds run `make_tunnels` (so a
construction error aborts before any engine/network activity). -/
def tunnelsFromRaw (raw : RawConfig) (env : ConstructEnv)
    (connectTunnels showCredentials : Bool)
    (resolveDns : String → Option String → Option String) : Except PyExc EngineSt := do
  let d ← mkTunnelDefinition raw env
  .ok (makeTunnel (mkEngineCtx connectTunnels showCredentials resolveDns) (.mk d none none) initSt)

/-- Does a construction fail with the spec's `ConfigError` (the
construction-time `ValueError` / pydantic validation error)? -/
def failsWithConfigError {α : Type} : Except PyExc α → Bool
  | .error (.valueError _) => true
  | .error (.validationError _) => true
  | _ => false

/-- Does a construction fail before `self.validate()` runs?  (Construction
errors other than the `ValueError` raised by `validate`.) -/
def failsBeforeValidate {α : Type} : Except PyExc α → Bool
  | .error (.valueError _) => false
  | .error _ => true
  | .ok _ => false

/-! ## Bookkeeping lemmas for the processed-configs list -/

/-- The ids of the recorded processed configs, in recording order. -/
def processedIds (s : EngineSt) : List String := s.processed.map dumpIdStr

/-- Fold candidate ids into an accumulator keeping first occurrences only:
the recording discipline of `_add_to_processed_configs`. -/
def dedupExtend (s l : List String) : List String :=
  l.foldl (fun acc x => if x ∈ acc then acc else acc ++ [x]) s

theorem dedupExtend_nil (s : List String) : dedupExtend s [] = s := rfl

theorem dedupExtend_cons (s : List String) (x : String) (l : List String) :
    dedupExtend s (x :: l) = dedupExtend (if x ∈ s then s else s ++ [x]) l := rfl

theorem dedupExtend_append (s l1 l2 : List String) :
    dedupExtend s (l1 ++ l2) = dedupExtend (dedupExtend s l1) l2 := by
  simp [dedupExtend, List.foldl_append]

theorem mem_dedupExtend {a : String} {s : List String} (l : List String) (h : a ∈ s) :
    a ∈ dedupExtend s l := by
  induction l generalizing s with
  | nil => simpa [dedupExtend]
  | cons x t ih =>
    rw [dedupExtend_cons]
    by_cases hx : x ∈ s
    · exact ih (by simpa [hx])
    · exact ih (by simp [hx, h])

theorem dedupExtend_cons_mem {x : String} {s : List String} (l : List String)
    (h : x ∈ s) : dedupExtend s (x :: l) = dedupExtend s l := by
  rw [dedupExtend_cons, if_pos h]

theorem dedupExtend_eq_append (s l : List String) (h1 : l.Nodup)
    (h2 : ∀ a ∈ l, a ∉ s) : dedupExtend s l = s ++ l := by
  induction l generalizing s with
  | nil => simp [dedupExtend]
  | cons x t ih =>
    rw [dedupExtend_cons, if_neg (h2 x (by simp))]
    rw [ih (s ++ [x]) h1.of_cons]
    · simp
    · intro a ha
      rcases List.nodup_cons.mp h1 with ⟨hx, -⟩
      simp only [List.mem_append, List.mem_singleton]
      rintro (hs | hax)
      · exact h2 a (by simp [ha]) hs
      · exact hx (hax ▸ ha)

/-- The candidate ids attempted by `_process_nexthops` for fan-out children:
each branch retries the parent's own id (through the `model_copy`) before
the child subtree's ids. -/
def fanIds (d : HopData) : List Hop → List String
  | [] => []
  | t :: rest => (d.id :: t.idsOf) ++ fanIds d rest

theorem idsOf_fanCopy (d : HopData) (t : Hop) :
    (updateBastion (.mk d (some t) none)).idsOf = d.id :: t.idsOf := by
  simp [updateBastion, Hop.idsOf, Hop.idsOfO, Hop.idsOfLO, updateBastionData]

theorem dedupExtend_fanIds (d : HopData) (l : List Hop) :
    ∀ s : List String, d.id ∈ s →
      dedupExtend s (fanIds d l) = dedupExtend s (Hop.idsOfL l) := by
  induction l with
  | nil => intro s _; rfl
  | cons t rest ih =>
    intro s hs
    have h1 : dedupExtend s (fanIds d (t :: rest)) =
        dedupExtend (dedupExtend s t.idsOf) (fanIds d rest) := by
      show dedupExtend s ((d.id :: t.idsOf) ++ fanIds d rest) = _
      rw [dedupExtend_append, dedupExtend_cons_mem t.idsOf hs]
    rw [h1, ih (dedupExtend s t.idsOf) (mem_dedupExtend t.idsOf hs)]
    show _ = dedupExtend s (t.idsOf ++ Hop.idsOfL rest)
    rw [dedupExtend_append]

theorem tunnels_addToProcessedConfigs (ctx : EngineCtx) (h : Hop) (s : EngineSt) :
    (addToProcessedConfigs ctx h s).tunnels = s.tunnels := by
  unfold addToProcessedConfigs
  split <;> rfl

theorem dumpIdStr_modelDump (h : Hop) (excl : List String)
    (hid : excl.contains "id" = false) : dumpIdStr (modelDump h excl) = h.data.id := by
  have hmem : "id" ∉ excl := by simpa using hid
  simp [modelDump, allFields, List.filter_cons, hmem, dumpIdStr, List.lookup]

/-- An id just offered to the accumulator is in the result. -/
theorem self_mem_dedupExtend_singleton (s : List String) (x : String) :
    x ∈ dedupExtend s [x] := by
  rw [dedupExtend_cons]
  by_cases hx : x ∈ s
  · exact mem_dedupExtend [] (by simpa [hx])
  · exact mem_dedupExtend [] (by simp [hx])

theorem processedIds_addToProcessedConfigs (ctx : EngineCtx) (h : Hop) (s : EngineSt)
    (hid : ctx.excludedFields.contains "id" = false) :
    processedIds (addToProcessedConfigs ctx h s) =
      dedupExtend (processedIds s) [h.data.id] := by
  unfold addToProcessedConfigs
  by_cases hm : h.data.id ∈ processedIds s
  · have hc : (s.processed.any fun t => dumpIdStr t == h.data.id) = true := by
      rcases List.mem_map.mp hm with ⟨t, ht, hts⟩
      exact List.any_eq_true.mpr ⟨t, ht, by simpa using hts⟩
    rw [if_pos hc, dedupExtend_cons_mem [] hm, dedupExtend_nil]
  · have hc : ¬ ((s.processed.any fun t => dumpIdStr t == h.data.id) = true) := by
      intro hcc
      rcases List.any_eq_true.mp hcc with ⟨t, ht, hts⟩
      exact hm (List.mem_map.mpr ⟨t, ht, by simpa using hts⟩)
    rw [if_neg hc]
    have hp : processedIds { s with processed := s.processed ++ [modelDump h ctx.excludedFields] } =
        processedIds s ++ [dumpIdStr (modelDump h ctx.excludedFields)] := by
      simp [processedIds]
    rw [hp, dumpIdStr_modelDump h ctx.excludedFields hid,
      dedupExtend_cons, if_neg hm, dedupExtend_nil]

theorem processedIds_set_tunnels (s : EngineSt) (X : List TunnelRecord) :
    processedIds { s with tunnels := X } = processedIds s := rfl

/-- Recorded-id evolution over the whole traversal: `make_tunnel` extends
the processed ids with the first occurrences of the preorder node ids, and
the fan-out revisits of a parent id are absorbed. -/
theorem processedIds_makeTunnel (ctx : EngineCtx)
    (hid : ctx.excludedFields.contains "id" = false) :
    ∀ (h : Hop) (s : EngineSt),
      processedIds (makeTunnel ctx h s) = dedupExtend (processedIds s) h.idsOf := by
  apply makeTunnel.induct ctx
    (fun h s => processedIds (makeTunnel ctx h s) = dedupExtend (processedIds s) h.idsOf)
    (fun d l s => processedIds (processNexthops ctx d l s) =
      dedupExtend (processedIds s) (fanIds d l))
    (fun d c s => processedIds (processNexthop ctx d c s) =
      dedupExtend (processedIds s) c.idsOf)
  · intro d s
    rw [makeTunnel, processedIds_addToProcessedConfigs ctx _ s hid]
    simp [Hop.idsOf, Hop.idsOfO, Hop.idsOfLO]
  · intro d c s ih
    rw [makeTunnel, ih, processedIds_addToProcessedConfigs ctx _ s hid]
    simp only [Hop.data_mk, Hop.idsOf, Hop.idsOfO, Hop.idsOfLO, List.append_nil]
    rw [show d.id :: c.idsOf = [d.id] ++ c.idsOf from rfl, dedupExtend_append]
  · intro d l s ih
    rw [makeTunnel, ih, processedIds_addToProcessedConfigs ctx _ s hid]
    simp only [Hop.data_mk, Hop.idsOf, Hop.idsOfO, Hop.idsOfLO, List.nil_append]
    rw [dedupExtend_fanIds d l _ (self_mem_dedupExtend_singleton _ _),
      show d.id :: Hop.idsOfL l = [d.id] ++ Hop.idsOfL l from rfl, dedupExtend_append]
  · intro d c l s ih3 ih2
    rw [makeTunnel, ih2, ih3, processedIds_addToProcessedConfigs ctx _ s hid]
    simp only [Hop.data_mk, Hop.idsOf, Hop.idsOfO, Hop.idsOfLO]
    have hd : d.id ∈ dedupExtend (dedupExtend (processedIds s) [d.id]) c.idsOf :=
      mem_dedupExtend _ (self_mem_dedupExtend_singleton _ _)
    rw [dedupExtend_fanIds d l _ hd,
      show d.id :: (c.idsOf ++ Hop.idsOfL l) = [d.id] ++ (c.idsOf ++ Hop.idsOfL l) from rfl,
      dedupExtend_append, dedupExtend_append]
  · intro d s
    rw [processNexthops]
    rfl
  · intro d s t rest ih1 ih2
    rw [processNexthops, ih2, ih1, idsOf_fanCopy]
    rw [show fanIds d (t :: rest) = (d.id :: t.idsOf) ++ fanIds d rest from rfl,
      dedupExtend_append]
  · intro d c s s1 ih
    rw [processNexthop]
    have hs1 : (if ctx.connectTunnels = true then
        ({ processed := s.processed, tunnels := s.tunnels ++ [mkTunnelRecord ctx d c] } : EngineSt)
        else s) = s1 := by
      show _ = (if _ : ctx.connectTunnels = true then
        ({ processed := s.processed, tunnels := s.tunnels ++ [mkTunnelRecord ctx d c] } : EngineSt)
        else s)
      by_cases hc : ctx.connectTunnels = true
      · rw [if_pos hc, dif_pos hc]
      · rw [if_neg hc, dif_neg hc]
    rw [hs1, ih, idsOf_updateBastion]
    have hp : processedIds s1 = processedIds s := by
      show processedIds (if _ : ctx.connectTunnels = true then
        ({ processed := s.processed, tunnels := s.tunnels ++ [mkTunnelRecord ctx d c] } : EngineSt)
        else s) = processedIds s
      by_cases hc : ctx.connectTunnels = true
      · rw [dif_pos hc]
        rfl
      · rw [dif_neg hc]
    rw [hp]

/-! ## Dial-target bookkeeping for the created tunnels -/

/-- A tunnel whose dial target — the bastion `(host, port)` captured when it
was materialized — equals the `(localbindaddress, localbindport)` of the
parent definition it was built from. -/
def Chained (t : TunnelRecord) : Prop :=
  t.bastionHost = t.parentLocalBindAddress ∧ t.bastionPort = some t.parentLocalBindPort

instance (t : TunnelRecord) : Decidable (Chained t) := by
  unfold Chained
  infer_instance

/-- The tunnel `_process_nexthop` materializes directly at a node (for the
node's own `nexthop` edge), if any. -/
def rootRecordOf (ctx : EngineCtx) : Hop → Option TunnelRecord
  | .mk d (some c) _ => some (mkTunnelRecord ctx d c)
  | _ => none

theorem chained_mkTunnelRecord_upd (ctx : EngineCtx) (d : HopData) (c : Hop) :
    Chained (mkTunnelRecord ctx (updateBastionData d) c) := by
  constructor <;> rfl

theorem chained_rootRecordOf_upd (ctx : EngineCtx) (c : Hop) (t : TunnelRecord)
    (h : rootRecordOf ctx (updateBastion c) = some t) : Chained t := by
  cases c with
  | mk cd cnh cnhs =>
    cases cnh with
    | none => simp [updateBastion, rootRecordOf] at h
    | some cc =>
      simp only [updateBastion, rootRecordOf, Option.some.injEq] at h
      rw [← h]
      exact chained_mkTunnelRecord_upd ctx cd cc

/-- Every tunnel the engine materializes is either pre-existing, or dials
its parent's own local bind (it is `Chained`), or is the single tunnel
materialized directly at the traversal root for the root's `nexthop` edge. -/
theorem tunnels_makeTunnel (ctx : EngineCtx) :
    ∀ (h : Hop) (s : EngineSt), ∀ t ∈ (makeTunnel ctx h s).tunnels,
      t ∈ s.tunnels ∨ Chained t ∨ rootRecordOf ctx h = some t := by
  apply makeTunnel.induct ctx
    (fun h s => ∀ t ∈ (makeTunnel ctx h s).tunnels,
      t ∈ s.tunnels ∨ Chained t ∨ rootRecordOf ctx h = some t)
    (fun d l s => ∀ t ∈ (processNexthops ctx d l s).tunnels,
      t ∈ s.tunnels ∨ Chained t)
    (fun d c s => ∀ t ∈ (processNexthop ctx d c s).tunnels,
      t ∈ s.tunnels ∨ Chained t ∨ t = mkTunnelRecord ctx d c)
  · intro d s t ht
    rw [makeTunnel, tunnels_addToProcessedConfigs] at ht
    exact .inl ht
  · intro d c s ih t ht
    rw [makeTunnel] at ht
    rcases ih t ht with h1 | h2 | h3
    · rw [tunnels_addToProcessedConfigs] at h1
      exact .inl h1
    · exact .inr (.inl h2)
    · right; right
      simp [rootRecordOf, h3]
  · intro d l s ih t ht
    rw [makeTunnel] at ht
    rcases ih t ht with h1 | h2
    · rw [tunnels_addToProcessedConfigs] at h1
      exact .inl h1
    · exact .inr (.inl h2)
  · intro d c l s ih3 ih2 t ht
    rw [makeTunnel] at ht
    rcases ih2 t ht with h1 | h2
    · rcases ih3 t h1 with g1 | g2 | g3
      · rw [tunnels_addToProcessedConfigs] at g1
        exact .inl g1
      · exact .inr (.inl g2)
      · right; right
        simp [rootRecordOf, g3]
    · exact .inr (.inl h2)
  · intro d s t ht
    rw [processNexthops] at ht
    exact .inl ht
  · intro d s c0 rest ih1 ih2 t ht
    rw [processNexthops] at ht
    rcases ih2 t ht with h1 | h2
    · rcases ih1 t h1 with g1 | g2 | g3
      · exact .inl g1
      · exact .inr g2
      · exact .inr (chained_rootRecordOf_upd ctx _ t g3)
    · exact .inr h2
  · intro d c s s1 ih t ht
    rw [processNexthop] at ht
    have hs1 : (if ctx.connectTunnels = true then
        ({ processed := s.processed, tunnels := s.tunnels ++ [mkTunnelRecord ctx d c] } : EngineSt)
        else s) = s1 := by
      show _ = (if _ : ctx.connectTunnels = true then
        ({ processed := s.processed, tunnels := s.tunnels ++ [mkTunnelRecord ctx d c] } : EngineSt)
        else s)
      by_cases hc : ctx.connectTunnels = true
      · rw [if_pos hc, dif_pos hc]
      · rw [if_neg hc, dif_neg hc]
    rw [hs1] at ht
    rcases ih t ht with h1 | h2 | h3
    · have hm : t ∈ s.tunnels ∨ t = mkTunnelRecord ctx d c := by
        revert h1
        show t ∈ (if _ : ctx.connectTunnels = true then
          ({ processed := s.processed, tunnels := s.tunnels ++ [mkTunnelRecord ctx d c] } : EngineSt)
          else s).tunnels → _
        by_cases hc : ctx.connectTunnels = true
        · rw [dif_pos hc]
          intro hmem
          rcases List.mem_append.mp hmem with m1 | m2
          · exact .inl m1
          · exact .inr (by simpa using m2)
        · rw [dif_neg hc]
          exact .inl
      rcases hm with m1 | m2
      · exact .inl m1
      · exact .inr (.inr m2)
    · exact .inr (.inl h2)
    · exact .inr (.inl (chained_rootRecordOf_upd ctx c t h3))

/-! ## Concrete fixtures -/

/-- The spec's two-hop scenario: final destination `svc` at 10.0.0.5:80,
local bind port 10001. -/
def svcHop : Hop :=
  .mk { id := "svc", host := some "10.0.0.5", port := some 80, localbindport := 10001 } none none

/-- The spec's two-hop scenario: root hop `bastion` at example.com:2222,
local bind 127.0.0.1:10000, chaining to `svc`. -/
def bastionChain : Hop :=
  .mk { id := "bastion", host := some "example.com", port := some 2222, localbindport := 10000 }
    (some svcHop) none

/-- A DNS resolver that finds nothing (no hop in the fixtures uses
`hostlookup`). -/
def noDns : String → Option String → Option String := fun _ _ => none

/-- A connect-mode engine context with credentials hidden. -/
def ctxConnect : EngineCtx := mkEngineCtx true false noDns

/-- Connect-mode run of the two-hop chain: exactly one tunnel is
materialized, for the `bastion → svc` edge, built from the root
definition. -/
theorem chain2_tunnels_eval :
    (makeTunnel ctxConnect bastionChain initSt).tunnels =
      [mkTunnelRecord ctxConnect bastionChain.data svcHop] := by
  simp [bastionChain, svcHop, makeTunnel, processNexthop, addToProcessedConfigs,
    updateBastion, updateBastionData, ctxConnect, mkEngineCtx, initSt, dumpIdStr,
    modelDump, allFields, getExcludedFields, List.filter, List.lookup, strTruthy,
    mkTunnelRecord]

/-! ## Claims -/

/-- C1 (counterexample): in the two-hop chain `bastion → svc`, the tunnel
materializing the non-root hop `svc` dials the root's declared
`(host, port) = (example.com, 2222)` — not the immediate parent's
`(localBindAddress, localBindPort) = (127.0.0.1, 10000)` — so the claim's
"every non-root hop's effective dial target equals the immediate parent's
local bind" is false at this input. -/
theorem C1_counterexample :
    (makeTunnel ctxConnect bastionChain initSt).tunnels =
        [mkTunnelRecord ctxConnect bastionChain.data svcHop] ∧
    (mkTunnelRecord ctxConnect bastionChain.data svcHop).tunnelId = "svc" ∧
    (mkTunnelRecord ctxConnect bastionChain.data svcHop).bastionHost = some "example.com" ∧
    (mkTunnelRecord ctxConnect bastionChain.data svcHop).bastionPort = some 2222 ∧
    (mkTunnelRecord ctxConnect bastionChain.data svcHop).parentLocalBindAddress
      = some "127.0.0.1" ∧
    (mkTunnelRecord ctxConnect bastionChain.data svcHop).parentLocalBindPort = 10000 ∧
    ¬ Chained (mkTunnelRecord ctxConnect bastionChain.data svcHop) :=
  ⟨chain2_tunnels_eval, rfl, rfl, rfl, rfl, rfl, by decide⟩

/-- C1 (amended): immediately before every recursive call the engine
overwrites the recursed-into node's `host`/`port` with that node's own
`localBindAddress`/`localBindPort`; consequently every materialized tunnel
either pre-existed, or dials the `(localBindAddress, localBindPort)` of the
parent definition it was built from (`Chained` — this covers every hop whose
parent is itself a rewritten node, i.e. depth ≥ 2, and every fan-out
branch), or is the single tunnel materialized at the unrewritten traversal
root for the root's own `nexthop` edge, which dials the root's declared
`(host, port)`. -/
theorem C1_theorem (ctx : EngineCtx) (h : Hop) (s : EngineSt) (t : TunnelRecord)
    (ht : t ∈ (makeTunnel ctx h s).tunnels) :
    ((updateBastion h).data.host = h.data.localbindaddress ∧
      (updateBastion h).data.port = some h.data.localbindport) ∧
    (t ∈ s.tunnels ∨ Chained t ∨ rootRecordOf ctx h = some t) := by
  refine ⟨⟨?_, ?_⟩, tunnels_makeTunnel ctx h s t ht⟩
  · cases h
    rfl
  · cases h
    rfl

/-- C1 (witness): the amended claim applied to the two-hop chain and its
single materialized tunnel. -/
theorem C1_witness :
    mkTunnelRecord ctxConnect bastionChain.data svcHop
        ∈ (makeTunnel ctxConnect bastionChain initSt).tunnels ∧
    (((updateBastion bastionChain).data.host = bastionChain.data.localbindaddress ∧
      (updateBastion bastionChain).data.port = some bastionChain.data.localbindport) ∧
     (mkTunnelRecord ctxConnect bastionChain.data svcHop ∈ initSt.tunnels ∨
      Chained (mkTunnelRecord ctxConnect bastionChain.data svcHop) ∨
      rootRecordOf ctxConnect bastionChain
        = some (mkTunnelRecord ctxConnect bastionChain.data svcHop))) :=
  have hmem : mkTunnelRecord ctxConnect bastionChain.data svcHop
      ∈ (makeTunnel ctxConnect bastionChain initSt).tunnels := by
    rw [chain2_tunnels_eval]
    exact List.mem_singleton.mpr rfl
  ⟨hmem, C1_theorem ctxConnect bastionChain initSt _ hmem⟩

/-- C2: for a hop tree with pairwise-distinct node ids, the engine's
flattened processed-configs list has exactly one entry per node — its ids
are exactly the preorder node ids, so there are N entries, pairwise
distinct; duplicate-id revisits (the fan-out `model_copy` of the parent)
are skipped for reporting while their subtrees are still traversed. -/
theorem C2_theorem (connect showCredentials : Bool)
    (resolve : String → Option String → Option String) (h : Hop)
    (hnd : h.idsOf.Nodup) :
    (makeTunnel (mkEngineCtx connect showCredentials resolve) h initSt).processed.map dumpIdStr
        = h.idsOf ∧
    (makeTunnel (mkEngineCtx connect showCredentials resolve) h initSt).processed.length
        = h.idsOf.length ∧
    ((makeTunnel (mkEngineCtx connect showCredentials resolve) h initSt).processed.map
        dumpIdStr).Nodup := by
  have hid : (mkEngineCtx connect showCredentials resolve).excludedFields.contains "id"
      = false := by
    cases showCredentials <;> rfl
  have hmain := processedIds_makeTunnel (mkEngineCtx connect showCredentials resolve) hid h initSt
  have hinit : processedIds initSt = [] := rfl
  rw [hinit, dedupExtend_eq_append [] h.idsOf hnd (by simp), List.nil_append] at hmain
  have hmap : List.map dumpIdStr
      (makeTunnel (mkEngineCtx connect showCredentials resolve) h initSt).processed
        = h.idsOf := hmain
  refine ⟨hmap, ?_, ?_⟩
  · calc (makeTunnel (mkEngineCtx connect showCredentials resolve) h initSt).processed.length
        = (List.map dumpIdStr
            (makeTunnel (mkEngineCtx connect showCredentials resolve) h
              initSt).processed).length := (List.length_map _ _).symm
      _ = h.idsOf.length := by rw [hmap]
  · rw [hmap]
    exact hnd

/-- A fan-out fixture: root `a` with children `b` (which chains to `d`)
and `c`; four nodes with distinct ids. -/
def fanTree : Hop :=
  .mk { id := "a", localbindport := 1 } none (some
    [.mk { id := "b", localbindport := 2 }
        (some (.mk { id := "d", localbindport := 4 } none none)) none,
     .mk { id := "c", localbindport := 3 } none none])

/-- C2 (witness): the dedup theorem applied to the four-node fan-out tree. -/
theorem C2_witness :
    fanTree.idsOf.Nodup ∧
    ((makeTunnel (mkEngineCtx false false noDns) fanTree initSt).processed.map dumpIdStr
        = fanTree.idsOf ∧
     (makeTunnel (mkEngineCtx false false noDns) fanTree initSt).processed.length
        = fanTree.idsOf.length ∧
     ((makeTunnel (mkEngineCtx false false noDns) fanTree initSt).processed.map
        dumpIdStr).Nodup) :=
  ⟨by decide, C2_theorem false false noDns fanTree (by decide)⟩

/-- The destroy events of the per-tunnel teardown loop are exactly the
tunnels, in the order the loop visits them. -/
theorem destroyedTunnels_flatMap (ts : List TunnelRecord) :
    destroyedTunnels (ts.flatMap
      (fun t => [.closingMessage t.localBindAddress t.localBindPort, .destroyTunnel t])) = ts := by
  induction ts with
  | nil => rfl
  | cons a l ih =>
    simp only [List.flatMap_cons, destroyedTunnels, List.filterMap_append] at ih ⊢
    rw [ih]
    rfl

/-- C3: `stop_tunnels` first restores the original hosts-file snapshot (the
second event, before any destroy — the first three events contain no
destroy), and then destroys the tunnel handles in exactly reverse creation
order. -/
theorem C3_theorem (s : EngineSt) :
    (stopTunnels s).take 3 =
        [.logStopping, .restoreOriginalHostsFile, .resetTunnelCount] ∧
    destroyedTunnels ((stopTunnels s).take 3) = [] ∧
    destroyedTunnels (stopTunnels s) = s.tunnels.reverse := by
  refine ⟨rfl, rfl, ?_⟩
  have h1 : destroyedTunnels (stopTunnels s) =
      destroyedTunnels (s.tunnels.reverse.flatMap
        (fun t => [.closingMessage t.localBindAddress t.localBindPort, .destroyTunnel t])) := by
    unfold stopTunnels destroyedTunnels
    rw [List.filterMap_append]
    rfl
  rw [h1]
  exact destroyedTunnels_flatMap s.tunnels.reverse

/-- C4: a `TunnelBuilder` whose forwarder never reports active performs
exactly 3 `start()` calls, checks `is_active` after each, sleeps one second
after each failed attempt (hence between consecutive attempts), never
propagates an exception (any `start()` exception is caught), and ends with
the tunnel down. -/
theorem C4_theorem (fb : ForwarderBehavior) (hdown : ∀ k, fb.activeAfter k = false) :
    (startTunnel fb).startCalls = 3 ∧
    (startTunnel fb).tunnelIsUp = false ∧
    (startTunnel fb).events.filter isNotCaughtExc =
      [.startCall 1, .activeCheck false, .logFailure 1, .sleepOneSecond,
       .startCall 2, .activeCheck false, .logFailure 2, .sleepOneSecond,
       .startCall 3, .activeCheck false, .logFailure 3, .sleepOneSecond] := by
  have e1 := hdown 1
  have e2 := hdown 2
  have e3 := hdown 3
  cases hr1 : fb.raisesOnStart 1 <;> cases hr2 : fb.raisesOnStart 2 <;>
    cases hr3 : fb.raisesOnStart 3 <;>
    simp [startTunnel, startTunnelLoop, e1, e2, e3, hr1, hr2, hr3, isNotCaughtExc,
      List.filter]

/-- C4 (witness): the retry-budget theorem at a forwarder that never raises
and never becomes active. -/
theorem C4_witness :
    (∀ k, (ForwarderBehavior.mk (fun _ => false) (fun _ => false)).activeAfter k = false) ∧
    ((startTunnel ⟨fun _ => false, fun _ => false⟩).startCalls = 3 ∧
     (startTunnel ⟨fun _ => false, fun _ => false⟩).tunnelIsUp = false ∧
     (startTunnel ⟨fun _ => false, fun _ => false⟩).events.filter isNotCaughtExc =
       [.startCall 1, .activeCheck false, .logFailure 1, .sleepOneSecond,
        .startCall 2, .activeCheck false, .logFailure 2, .sleepOneSecond,
        .startCall 3, .activeCheck false, .logFailure 3, .sleepOneSecond]) :=
  ⟨fun _ => rfl, C4_theorem ⟨fun _ => false, fun _ => false⟩ (fun _ => rfl)⟩

/-- C5: for every hop and either credential mode, the flattened reporting
dict produced with `_get_excluded_fields` never contains `nexthop`,
`nexthops`, `localbindaddress` or `localbindport`, and contains `sshuser`,
`sshpass`, `sshkeyfile` with their exact resolved values exactly when
`show_credentials` is true. -/
theorem C5_theorem (h : Hop) (sc : Bool) :
    List.lookup "nexthop" (modelDump h (getExcludedFields sc)) = none ∧
    List.lookup "nexthops" (modelDump h (getExcludedFields sc)) = none ∧
    List.lookup "localbindaddress" (modelDump h (getExcludedFields sc)) = none ∧
    List.lookup "localbindport" (modelDump h (getExcludedFields sc)) = none ∧
    List.lookup "sshuser" (modelDump h (getExcludedFields sc)) =
      (if sc then some (.vs h.data.sshuser) else none) ∧
    List.lookup "sshpass" (modelDump h (getExcludedFields sc)) =
      (if sc then some (.vs h.data.sshpass) else none) ∧
    List.lookup "sshkeyfile" (modelDump h (getExcludedFields sc)) =
      (if sc then some (.vs h.data.sshkeyfile) else none) := by
  cases sc <;> exact ⟨rfl, rfl, rfl, rfl, rfl, rfl, rfl⟩

/-- C6: a construction that reaches validation with `host` or `port` still
empty fails with the construction-time config error (the spec's
`ConfigError`, raised by `validate` as `ValueError`), and the engine is
never entered — no tunnel activity happens.  (`id` and `localbindport` are
required non-optional fields: when absent, the pydantic init itself fails
with a config error even earlier.) -/
theorem C6_theorem (raw : RawConfig) (env : ConstructEnv)
    (connect showCredentials : Bool)
    (resolve : String → Option String → Option String) (d : HopData)
    (hpre : preValidate raw env = .ok d)
    (hempty : d.host = none ∨ d.port = none) :
    failsWithConfigError (mkTunnelDefinition raw env) = true ∧
    failsWithConfigError (tunnelsFromRaw raw env connect showCredentials resolve) = true := by
  have hval : ∃ msg, validateTD d = .error (.valueError msg) := by
    rcases hempty with hh | hh
    · exact ⟨"Field host cannot be empty.", by simp [validateTD, hh]⟩
    · by_cases hh2 : d.host = none
      · exact ⟨"Field host cannot be empty.", by simp [validateTD, hh2]⟩
      · exact ⟨"Field port cannot be empty.", by simp [validateTD, hh2, hh]⟩
  rcases hval with ⟨msg, hv⟩
  have hmk : mkTunnelDefinition raw env = .error (.valueError msg) := by
    unfold mkTunnelDefinition
    rw [hpre]
    exact hv
  constructor
  · rw [hmk]
    rfl
  · unfold tunnelsFromRaw
    rw [hmk]
    rfl

/-- The single-node raw config of the C6 witness: only `id` and
`localbindport` are given, so `host` stays empty through resolution. -/
def c6raw : RawConfig := { id := some "a", localbindport := some 8080 }

/-- A benign environment: the SSH config file exists but matches nothing;
no vault, no include files. -/
def c6env : ConstructEnv := ⟨true, fun _ => {}, fun _ => none, fun _ => none, none⟩

/-- What `c6raw` resolves to before validation. -/
def c6resolved : HopData := { id := "a", localbindport := 8080 }

/-- C6 (witness): the validation-failure theorem at the hostless
single-node config. -/
theorem C6_witness :
    preValidate c6raw c6env = .ok c6resolved ∧
    (c6resolved.host = none ∨ c6resolved.port = none) ∧
    (failsWithConfigError (mkTunnelDefinition c6raw c6env) = true ∧
     failsWithConfigError (tunnelsFromRaw c6raw c6env true false noDns) = true) :=
  ⟨rfl, .inl rfl, C6_theorem c6raw c6env true false noDns c6resolved rfl (.inl rfl)⟩

/-- C7: evaluating the monitor tick on a connect-mode run of the two-hop
chain whose only tunnel is down: the code prints `Active tunnels: 0 of 0`
with the all-active banner and an empty down-id list, because nothing in
the repository ever calls `TunnelCount.add_tunnel` (the registry list stays
empty) and `TunnelCount.tunnels` additionally drops the last element — the
claim (and the method's own docstring) instead require the total created
(1) and the explicit down id `svc`. -/
theorem C7_theorem :
    (makeTunnel ctxConnect bastionChain initSt).tunnels.map (fun t => t.tunnelId) = ["svc"] ∧
    checkTunnelStatus
        ((makeTunnel ctxConnect bastionChain initSt).tunnels.map (fun t => (t.tunnelId, false)))
        []
      = { activeTunnels := 0, totalReported := 0, downIds := [], allActiveBanner := true } := by
  rw [chain2_tunnels_eval]
  exact ⟨rfl, rfl⟩

/-- C8 (counterexample): destroying a live tunnel succeeds and deletes the
handle attribute; calling `destroy_tunnel` again raises `AttributeError`
rather than being a safe no-op, so destroy is not idempotent. -/
theorem C8_counterexample :
    destroyTunnel { tunnel := some 0 } = .ok { tunnel := none } ∧
    destroyTunnel { tunnel := none } = .error (.attributeError "tunnel") :=
  ⟨rfl, rfl⟩

/-- C8 (amended): the first `destroy_tunnel` on a live tunnel closes the
forwarder and deletes the `tunnel` attribute; a second call raises
`AttributeError` (the engine's stop loop tolerates this through its
try/except). -/
theorem C8_theorem (b : BuilderState) (hlive : b.tunnel.isSome = true) :
    destroyTunnel b = .ok { tunnel := none } ∧
    destroyTunnel { tunnel := none } = .error (.attributeError "tunnel") := by
  cases b with
  | mk t =>
    cases t with
    | none => simp at hlive
    | some fh => exact ⟨rfl, rfl⟩

/-- C8 (witness): the amended destroy behaviour at a concrete live
builder. -/
theorem C8_witness :
    ({ tunnel := some 0 } : BuilderState).tunnel.isSome = true ∧
    (destroyTunnel { tunnel := some 0 } = .ok { tunnel := none } ∧
     destroyTunnel { tunnel := none } = .error (.attributeError "tunnel")) :=
  ⟨rfl, C8_theorem { tunnel := some 0 } rfl⟩

/-- Did a `RunCommand`/`NSLookup` call end in an error? -/
def isErrorResult {α : Type} : Except PyExc α → Bool
  | .error _ => true
  | .ok _ => false

/-- An exec behaviour whose remote dig always completes immediately with
empty stdout, empty stderr and exit code 0. -/
def emptyDigBehavior : ExecBehavior := ⟨fun _ _ => some ⟨"", "", 0⟩⟩

/-- C9 (counterexample): when the remote dig yields nothing (empty stdout,
exit code 0), the lookup does not fail — `NSLookup` completes with
`host_ip = ""`, returning the empty resolved address the claim says it must
not return. -/
theorem C9_counterexample :
    nslookupHostIp "db.internal" none emptyDigBehavior = .ok "" ∧
    isErrorResult (nslookupHostIp "db.internal" none emptyDigBehavior) = false :=
  ⟨rfl, rfl⟩

/-- C9 (amended): whenever the remote dig command completes on its first
attempt with stdout stripping to the empty string and exit code 0, the
lookup returns `host_ip = ""` without raising; an empty result only fails
indirectly, through the process exit taken when the remote exit code is
nonzero. -/
theorem C9_theorem (b : ExecBehavior) (record : String) (ns : Option String)
    (o : ExecOutcome)
    (h1 : b.attemptOutcome (makeLookupCmd record ns) 1 = some o)
    (h2 : pyStrip o.stdout = "") (h3 : o.exitCode = 0) :
    nslookupHostIp record ns b = .ok "" := by
  unfold nslookupHostIp runCommand execAttempts
  rw [h1]
  simp [h2, h3]

/-- C9 (witness): the empty-result behaviour at the concrete all-empty
exec. -/
theorem C9_witness :
    emptyDigBehavior.attemptOutcome (makeLookupCmd "db.internal" none) 1
        = some ⟨"", "", 0⟩ ∧
    pyStrip (ExecOutcome.mk "" "" 0).stdout = "" ∧
    (ExecOutcome.mk "" "" 0).exitCode = 0 ∧
    nslookupHostIp "db.internal" none emptyDigBehavior = .ok "" :=
  ⟨rfl, rfl, rfl,
    C9_theorem emptyDigBehavior "db.internal" none ⟨"", "", 0⟩ rfl rfl rfl⟩

/-- `Except.bind` on a success. -/
theorem exceptBind_ok {α β : Type} (a : α) (f : α → Except PyExc β) :
    (Except.ok a >>= f) = f a := rfl

/-- `Except.bind` on a failure. -/
theorem exceptBind_error {α β : Type} (e : PyExc) (f : α → Except PyExc β) :
    ((Except.error e : Except PyExc α) >>= f) = .error e := rfl

/-- Errors of the pydantic init are always required-field validation
errors. -/
theorem pydanticInit_error_shape (raw : RawConfig) (e : PyExc)
    (h : pydanticInit raw = .error e) : ∃ f, e = .validationError f := by
  unfold pydanticInit at h
  cases hid0 : raw.id with
  | none =>
    rw [hid0] at h
    exact ⟨"id", by injection h with hh; exact hh.symm⟩
  | some i =>
    rw [hid0] at h
    cases hlbp : raw.localbindport with
    | none =>
      rw [hlbp] at h
      exact ⟨"localbindport", by injection h with hh; exact hh.symm⟩
    | some lbp =>
      rw [hlbp] at h
      simp at h

/-- Errors of the include step are missing include files or validation
errors from the re-init on the merged mapping. -/
theorem includeStep_error_shape (raw : RawConfig) (d0 : HopData) (env : ConstructEnv)
    (e : PyExc) (h : includeStep raw d0 env = .error e) :
    (∃ p, e = .fileNotFound p) ∨ (∃ f, e = .validationError f) := by
  unfold includeStep at h
  by_cases hc : (strTruthy d0.include_ && env.configFilePath.isSome) = true
  · rw [if_pos hc] at h
    cases hf : env.includeFiles (d0.include_.getD "") with
    | none =>
      rw [hf] at h
      exact .inl ⟨_, by injection h with hh; exact hh.symm⟩
    | some frag =>
      rw [hf] at h
      exact .inr (pydanticInit_error_shape _ _ h)
  · rw [if_neg hc] at h
    cases h

/-- C10: whenever `~/.ssh/config` does not exist, constructing any
`TunnelDefinition` fails before `self.validate()` runs (with the
missing-file error from the unconditional `open`, or with an even earlier
pre-validation error from the pydantic init or the include step), even for
configurations that need no SSH-config defaults. -/
theorem C10_theorem (raw : RawConfig) (env : ConstructEnv)
    (hmissing : env.sshConfigExists = false) :
    failsBeforeValidate (mkTunnelDefinition raw env) = true := by
  unfold mkTunnelDefinition preValidate
  cases hp : pydanticInit raw with
  | error e =>
    rcases pydanticInit_error_shape raw e hp with ⟨f, rfl⟩
    rfl
  | ok d0 =>
    simp only [exceptBind_ok]
    cases hi : includeStep raw d0 env with
    | error e2 =>
      rcases includeStep_error_shape raw d0 env e2 hi with ⟨p, rfl⟩ | ⟨f, rfl⟩ <;> rfl
    | ok d1 =>
      simp only [exceptBind_ok, hmissing, Bool.false_eq_true, if_false, exceptBind_error]
      rfl

/-- The C10 witness config: a complete single node that needs no
SSH-config defaults at all. -/
def c10raw : RawConfig := { id := some "a", host := some "h", localbindport := some 1 }

/-- An environment whose `~/.ssh/config` is missing. -/
def c10env : ConstructEnv := ⟨false, fun _ => {}, fun _ => none, fun _ => none, none⟩

/-- C10 (witness): with `~/.ssh/config` missing, even the fully-specified
config fails before validation. -/
theorem C10_witness :
    c10env.sshConfigExists = false ∧
    failsBeforeValidate (mkTunnelDefinition c10raw c10env) = true :=
  ⟨rfl, C10_theorem c10raw c10env rfl⟩

end Tunnelgraf
